import Mathlib

/-!
Verification of the SDLT calculator MCP server (`src/main.rs`).

The calculator is modelled over the rationals `ℚ` (standing for the exact
real values the binary floating-point computation approximates); the band
arithmetic of the source uses only values and rates that the claims treat
as exact real arithmetic.  The MCP result envelope is modelled by a small
`CallToolResult` structure mirroring the rmcp type used by the source.
-/

/-- The tax-band computation of `Calculator::calculate_sdlt`
(`src/main.rs` lines 55-71), transcribed branch for branch:
a running `tax` starting at `0.0`, with one conditional addition per band,
highest band first, each using a strict `>` comparison and `min` for the
band upper edge. -/
def calculate_sdlt_tax (property_value : ℚ) : ℚ :=
  let tax : ℚ := 0
  let tax : ℚ :=
    if property_value > 1500000 then
      tax + (property_value - 1500000) * (12 / 100)
    else tax
  let tax : ℚ :=
    if property_value > 925000 then
      tax + (min property_value 1500000 - 925000) * (10 / 100)
    else tax
  let tax : ℚ :=
    if property_value > 250000 then
      tax + (min property_value 925000 - 250000) * (5 / 100)
    else tax
  let tax : ℚ :=
    if property_value > 125000 then
      tax + (min property_value 250000 - 125000) * (2 / 100)
    else tax
  tax

/-- The marginal-band closed form stated by the spec (§4.1):
`t₁ + t₂ + t₃ + t₄` with `tᵢ = max(0, min(v, upperᵢ) - lowerᵢ) * rateᵢ`. -/
def sdlt_closed_form (v : ℚ) : ℚ :=
  max 0 (min v 250000 - 125000) * (2 / 100)
    + max 0 (min v 925000 - 250000) * (5 / 100)
    + max 0 (min v 1500000 - 925000) * (10 / 100)
    + max 0 (v - 1500000) * (12 / 100)

lemma calculate_sdlt_tax_eq_closed_form (v : ℚ) :
    calculate_sdlt_tax v = sdlt_closed_form v := by
  simp only [calculate_sdlt_tax, sdlt_closed_form]
  rcases le_or_lt v 125000 with h1 | h1
  · have n1 : ¬ v > 125000 := not_lt.mpr h1
    have n2 : ¬ v > 250000 := by push_neg; linarith
    have n3 : ¬ v > 925000 := by push_neg; linarith
    have n4 : ¬ v > 1500000 := by push_neg; linarith
    simp only [if_neg n1, if_neg n2, if_neg n3, if_neg n4]
    rw [min_eq_left (by linarith : v ≤ (250000 : ℚ)),
        min_eq_left (by linarith : v ≤ (925000 : ℚ)),
        min_eq_left (by linarith : v ≤ (1500000 : ℚ)),
        max_eq_left (by linarith : v - 125000 ≤ (0 : ℚ)),
        max_eq_left (by linarith : v - 250000 ≤ (0 : ℚ)),
        max_eq_left (by linarith : v - 925000 ≤ (0 : ℚ)),
        max_eq_left (by linarith : v - 1500000 ≤ (0 : ℚ))]
    ring
  · rcases le_or_lt v 250000 with h2 | h2
    · have p1 : v > 125000 := h1
      have n2 : ¬ v > 250000 := not_lt.mpr h2
      have n3 : ¬ v > 925000 := by push_neg; linarith
      have n4 : ¬ v > 1500000 := by push_neg; linarith
      simp only [if_pos p1, if_neg n2, if_neg n3, if_neg n4]
      rw [min_eq_left (by linarith : v ≤ (250000 : ℚ)),
          min_eq_left (by linarith : v ≤ (925000 : ℚ)),
          min_eq_left (by linarith : v ≤ (1500000 : ℚ)),
          max_eq_right (by linarith : (0 : ℚ) ≤ v - 125000),
          max_eq_left (by linarith : v - 250000 ≤ (0 : ℚ)),
          max_eq_left (by linarith : v - 925000 ≤ (0 : ℚ)),
          max_eq_left (by linarith : v - 1500000 ≤ (0 : ℚ))]
      ring
    · rcases le_or_lt v 925000 with h3 | h3
      · have p1 : v > 125000 := by linarith
        have p2 : v > 250000 := h2
        have n3 : ¬ v > 925000 := not_lt.mpr h3
        have n4 : ¬ v > 1500000 := by push_neg; linarith
        simp only [if_pos p1, if_pos p2, if_neg n3, if_neg n4]
        rw [min_eq_right (by linarith : (250000 : ℚ) ≤ v),
            min_eq_left (by linarith : v ≤ (925000 : ℚ)),
            min_eq_left (by linarith : v ≤ (1500000 : ℚ)),
            max_eq_right (by norm_num : (0 : ℚ) ≤ 250000 - 125000),
            max_eq_right (by linarith : (0 : ℚ) ≤ v - 250000),
            max_eq_left (by linarith : v - 925000 ≤ (0 : ℚ)),
            max_eq_left (by linarith : v - 1500000 ≤ (0 : ℚ))]
        ring
      · rcases le_or_lt v 1500000 with h4 | h4
        · have p1 : v > 125000 := by linarith
          have p2 : v > 250000 := by linarith
          have p3 : v > 925000 := h3
          have n4 : ¬ v > 1500000 := not_lt.mpr h4
          simp only [if_pos p1, if_pos p2, if_pos p3, if_neg n4]
          rw [min_eq_right (by linarith : (250000 : ℚ) ≤ v),
              min_eq_right (by linarith : (925000 : ℚ) ≤ v),
              min_eq_left (by linarith : v ≤ (1500000 : ℚ)),
              max_eq_right (by norm_num : (0 : ℚ) ≤ 250000 - 125000),
              max_eq_right (by norm_num : (0 : ℚ) ≤ 925000 - 250000),
              max_eq_right (by linarith : (0 : ℚ) ≤ v - 925000),
              max_eq_left (by linarith : v - 1500000 ≤ (0 : ℚ))]
          ring
        · have p1 : v > 125000 := by linarith
          have p2 : v > 250000 := by linarith
          have p3 : v > 925000 := by linarith
          have p4 : v > 1500000 := h4
          simp only [if_pos p1, if_pos p2, if_pos p3, if_pos p4]
          rw [min_eq_right (by linarith : (250000 : ℚ) ≤ v),
              min_eq_right (by linarith : (925000 : ℚ) ≤ v),
              min_eq_right (by linarith : (1500000 : ℚ) ≤ v),
              max_eq_right (by norm_num : (0 : ℚ) ≤ 250000 - 125000),
              max_eq_right (by norm_num : (0 : ℚ) ≤ 925000 - 250000),
              max_eq_right (by norm_num : (0 : ℚ) ≤ 1500000 - 925000),
              max_eq_right (by linarith : (0 : ℚ) ≤ v - 1500000)]
          ring

/-- Claim C1: for every non-negative property value `v`, the tax computed by
`calculate_sdlt` equals the sum of the four marginal-rate band
contributions `max 0 (min v upper - lower) * rate`. -/
theorem c1_band_sum (v : ℚ) (h : 0 ≤ v) :
    calculate_sdlt_tax v =
      max 0 (min v 250000 - 125000) * (2 / 100)
        + max 0 (min v 925000 - 250000) * (5 / 100)
        + max 0 (min v 1500000 - 925000) * (10 / 100)
        + max 0 (v - 1500000) * (12 / 100) :=
  calculate_sdlt_tax_eq_closed_form v

theorem c1_band_sum_witness :
    (0 : ℚ) ≤ 500000 ∧
      calculate_sdlt_tax 500000 =
        max 0 (min 500000 250000 - 125000) * (2 / 100)
          + max 0 (min 500000 925000 - 250000) * (5 / 100)
          + max 0 (min 500000 1500000 - 925000) * (10 / 100)
          + max 0 ((500000 : ℚ) - 1500000) * (12 / 100) :=
  ⟨by norm_num, c1_band_sum 500000 (by norm_num)⟩

/-- Claim C2: the calculator returns the fixed-point values given by the
spec edge cases and end-to-end scenarios. -/
theorem c2_fixed_points :
    calculate_sdlt_tax 0 = 0 ∧
      calculate_sdlt_tax 125000 = 0 ∧
      calculate_sdlt_tax 250000 = 2500 ∧
      calculate_sdlt_tax 500000 = 15000 ∧
      calculate_sdlt_tax 925000 = 36250 ∧
      calculate_sdlt_tax 1500000 = 93750 ∧
      calculate_sdlt_tax 2000000 = 153750 := by
  refine ⟨?_, ?_, ?_, ?_, ?_, ?_, ?_⟩ <;> norm_num [calculate_sdlt_tax]

lemma band_term_mono (a K r : ℚ) (hr : 0 ≤ r) {v1 v2 : ℚ} (h : v1 ≤ v2) :
    max 0 (min v1 K - a) * r ≤ max 0 (min v2 K - a) * r :=
  mul_le_mul_of_nonneg_right
    (max_le_max le_rfl (sub_le_sub_right (min_le_min h le_rfl) a)) hr

lemma top_band_term_mono (a r : ℚ) (hr : 0 ≤ r) {v1 v2 : ℚ} (h : v1 ≤ v2) :
    max 0 (v1 - a) * r ≤ max 0 (v2 - a) * r :=
  mul_le_mul_of_nonneg_right (max_le_max le_rfl (sub_le_sub_right h a)) hr

/-- Claim C5: the calculator is monotonically non-decreasing on valid
(non-negative) inputs. -/
theorem c5_monotone (v1 v2 : ℚ) (h0 : 0 ≤ v1) (h : v1 ≤ v2) :
    calculate_sdlt_tax v1 ≤ calculate_sdlt_tax v2 := by
  rw [calculate_sdlt_tax_eq_closed_form, calculate_sdlt_tax_eq_closed_form]
  unfold sdlt_closed_form
  have t1 := band_term_mono 125000 250000 (2 / 100) (by norm_num) h
  have t2 := band_term_mono 250000 925000 (5 / 100) (by norm_num) h
  have t3 := band_term_mono 925000 1500000 (10 / 100) (by norm_num) h
  have t4 := top_band_term_mono 1500000 (12 / 100) (by norm_num) h
  exact add_le_add (add_le_add (add_le_add t1 t2) t3) t4

theorem c5_monotone_witness :
    (0 : ℚ) ≤ 125000 ∧ (125000 : ℚ) ≤ 2000000 ∧
      calculate_sdlt_tax 125000 ≤ calculate_sdlt_tax 2000000 :=
  ⟨by norm_num, by norm_num, c5_monotone 125000 2000000 (by norm_num) (by norm_num)⟩

lemma sdlt_closed_form_bounds (v : ℚ) (h : 0 ≤ v) :
    0 ≤ sdlt_closed_form v ∧ sdlt_closed_form v ≤ 12 / 100 * v := by
  unfold sdlt_closed_form
  rcases le_or_lt v 125000 with h1 | h1
  · rw [min_eq_left (by linarith : v ≤ (250000 : ℚ)),
        min_eq_left (by linarith : v ≤ (925000 : ℚ)),
        min_eq_left (by linarith : v ≤ (1500000 : ℚ)),
        max_eq_left (by linarith : v - 125000 ≤ (0 : ℚ)),
        max_eq_left (by linarith : v - 250000 ≤ (0 : ℚ)),
        max_eq_left (by linarith : v - 925000 ≤ (0 : ℚ)),
        max_eq_left (by linarith : v - 1500000 ≤ (0 : ℚ))]
    constructor <;> linarith
  · rcases le_or_lt v 250000 with h2 | h2
    · rw [min_eq_left (by linarith : v ≤ (250000 : ℚ)),
          min_eq_left (by linarith : v ≤ (925000 : ℚ)),
          min_eq_left (by linarith : v ≤ (1500000 : ℚ)),
          max_eq_right (by linarith : (0 : ℚ) ≤ v - 125000),
          max_eq_left (by linarith : v - 250000 ≤ (0 : ℚ)),
          max_eq_left (by linarith : v - 925000 ≤ (0 : ℚ)),
          max_eq_left (by linarith : v - 1500000 ≤ (0 : ℚ))]
      constructor <;> linarith
    · rcases le_or_lt v 925000 with h3 | h3
      · rw [min_eq_right (by linarith : (250000 : ℚ) ≤ v),
            min_eq_left (by linarith : v ≤ (925000 : ℚ)),
            min_eq_left (by linarith : v ≤ (1500000 : ℚ)),
            max_eq_right (by norm_num : (0 : ℚ) ≤ 250000 - 125000),
            max_eq_right (by linarith : (0 : ℚ) ≤ v - 250000),
            max_eq_left (by linarith : v - 925000 ≤ (0 : ℚ)),
            max_eq_left (by linarith : v - 1500000 ≤ (0 : ℚ))]
        constructor <;> linarith
      · rcases le_or_lt v 1500000 with h4 | h4
        · rw [min_eq_right (by linarith : (250000 : ℚ) ≤ v),
              min_eq_right (by linarith : (925000 : ℚ) ≤ v),
              min_eq_left (by linarith : v ≤ (1500000 : ℚ)),
              max_eq_right (by norm_num : (0 : ℚ) ≤ 250000 - 125000),
              max_eq_right (by norm_num : (0 : ℚ) ≤ 925000 - 250000),
              max_eq_right (by linarith : (0 : ℚ) ≤ v - 925000),
              max_eq_left (by linarith : v - 1500000 ≤ (0 : ℚ))]
          constructor <;> linarith
        · rw [min_eq_right (by linarith : (250000 : ℚ) ≤ v),
              min_eq_right (by linarith : (925000 : ℚ) ≤ v),
              min_eq_right (by linarith : (1500000 : ℚ) ≤ v),
              max_eq_right (by norm_num : (0 : ℚ) ≤ 250000 - 125000),
              max_eq_right (by norm_num : (0 : ℚ) ≤ 925000 - 250000),
              max_eq_right (by norm_num : (0 : ℚ) ≤ 1500000 - 925000),
              max_eq_right (by linarith : (0 : ℚ) ≤ v - 1500000)]
          constructor <;> linarith

/-- Claim C6: for every valid (non-negative) input the computed tax is
non-negative, at most `0.12 * v`, and in particular never exceeds the
price itself. -/
theorem c6_bounds (v : ℚ) (h : 0 ≤ v) :
    0 ≤ calculate_sdlt_tax v ∧
      calculate_sdlt_tax v ≤ 12 / 100 * v ∧
      calculate_sdlt_tax v ≤ v := by
  rw [calculate_sdlt_tax_eq_closed_form]
  obtain ⟨hl, hu⟩ := sdlt_closed_form_bounds v h
  exact ⟨hl, hu, by linarith⟩

theorem c6_bounds_witness :
    (0 : ℚ) ≤ 2000000 ∧
      (0 ≤ calculate_sdlt_tax 2000000 ∧
        calculate_sdlt_tax 2000000 ≤ 12 / 100 * 2000000 ∧
        calculate_sdlt_tax 2000000 ≤ 2000000) :=
  ⟨by norm_num, c6_bounds 2000000 (by norm_num)⟩

/-- The rmcp `CallToolResult` envelope, restricted to what the source
produces: a list of text content elements and the error flag. -/
structure CallToolResult where
  content : List String
  isError : Bool
deriving DecidableEq

/-- `CallToolResult::success`: wraps content with the error flag unset. -/
def CallToolResult.success (content : List String) : CallToolResult :=
  { content := content, isError := false }

/-- The tool argument record of `src/main.rs` lines 13-16: a single
required numeric field `property_value`. -/
structure IpValidateRequest where
  property_value : ℚ
deriving DecidableEq

/-- Modelled from the spec: the Rust `{value:.2}` formatting of the
response numbers (done by the standard library, outside this repository).
Renders a number with exactly two digits after the decimal point, no
thousands separators; ties are rounded half away from zero as §9 of the
spec fixes for presentation. -/
def fmt2 (q : ℚ) : String :=
  let a : ℚ := if q < 0 then -q else q
  let cents : ℤ := (a.num * 200 + (a.den : ℤ)) / (2 * (a.den : ℤ))
  let whole := cents / 100
  let frac := cents % 100
  (if q < 0 then "-" else "")
    ++ toString whole ++ "."
    ++ (if frac < 10 then "0" else "") ++ toString frac

/-- The handler body of `Calculator::calculate_sdlt`
(`src/main.rs` lines 42-77): the already-present `property_value` is
wrapped in `some` and matched; the `some` arm computes the tax and
formats the success text, the `none` arm would return the
`Property value is missing.` success text. -/
def calculate_sdlt (property_value : ℚ) : CallToolResult :=
  match (some property_value : Option ℚ) with
  | some val =>
      let tax := calculate_sdlt_tax val
      CallToolResult.success
        ["SDLT for £" ++ fmt2 val ++ " is £" ++ fmt2 tax]
  | none => CallToolResult.success ["Property value is missing."]

/-- Modelled from the spec and the serde derive on `IpValidateRequest`:
`property_value` is a required field with no default, so deserialising an
arguments object that lacks the key fails.  The arguments object is
abstracted to the optional value found under its `property_value` key. -/
def parse_ip_validate_request (args : Option ℚ) : Option IpValidateRequest :=
  match args with
  | some v => some { property_value := v }
  | none => none

/-- Modelled from the spec: the rmcp `#[tool(aggr)]` dispatch layer
(library code, outside this repository) deserialises the arguments into
`IpValidateRequest` and only then invokes the handler; a failed
deserialisation is reported as an invalid-params error and the handler
never runs. -/
def handle_calculate_sdlt_call (args : Option ℚ) : Except String CallToolResult :=
  match parse_ip_validate_request args with
  | some req => Except.ok (calculate_sdlt req.property_value)
  | none => Except.error "invalid_params"

lemma sdlt_text_ne_missing (s : String) :
    "SDLT for £" ++ s ≠ "Property value is missing." := by
  obtain ⟨l⟩ := s
  intro h
  have h3 : ("SDLT for £" ++ String.mk l).data.head? = some 'S' := rfl
  rw [h] at h3
  exact absurd h3 (by decide)

lemma sdlt_text3_ne_missing (s t u : String) :
    "SDLT for £" ++ s ++ t ++ u ≠ "Property value is missing." := by
  obtain ⟨l1⟩ := s
  obtain ⟨l2⟩ := t
  obtain ⟨l3⟩ := u
  intro h
  have h3 : ("SDLT for £" ++ String.mk l1 ++ String.mk l2
      ++ String.mk l3).data.head? = some 'S' := rfl
  rw [h] at h3
  exact absurd h3 (by decide)

/-- Claim C8: the missing-value branch of `calculate_sdlt` is
unreachable.  The handler matches `some property_value` on a value it
just wrapped in `some`, so the `none` arm is never taken: the result is
always the formatted SDLT success text, and the text
`Property value is missing.` can never be produced by this function. -/
theorem c8_missing_branch_unreachable (v : ℚ) :
    calculate_sdlt v =
      CallToolResult.success
        ["SDLT for £" ++ fmt2 v ++ " is £" ++ fmt2 (calculate_sdlt_tax v)] ∧
      calculate_sdlt v ≠
        CallToolResult.success ["Property value is missing."] := by
  refine ⟨rfl, ?_⟩
  intro h
  have h1 : calculate_sdlt v =
      CallToolResult.success
        ["SDLT for £" ++ fmt2 v ++ " is £" ++ fmt2 (calculate_sdlt_tax v)] := rfl
  rw [h1] at h
  have h2 := congrArg CallToolResult.content h
  simp only [CallToolResult.success, List.cons.injEq, and_true] at h2
  exact sdlt_text3_ne_missing (fmt2 v) " is £" (fmt2 (calculate_sdlt_tax v)) h2

/-- Claim C3 counterexample: at the concrete negative input `-1` the
handler returns a success result (error flag unset) reporting a tax of
`£0.00`, not an MCP tool-level error of any kind. -/
theorem c3_counterexample :
    (calculate_sdlt (-1)).isError = false ∧
      (calculate_sdlt (-1)).content = ["SDLT for £-1.00 is £0.00"] := by
  constructor
  · rfl
  · decide

/-- Claim C3 amended: `calculate_sdlt` performs no input validation and
never returns an error result: every representable input, negative
included, produces a success result, so the handler has no InvalidInput
failure mode at all. -/
theorem c3_amended_always_success (v : ℚ) :
    (calculate_sdlt v).isError = false := rfl

/-- Claim C4 (code bug): at a call whose arguments object lacks the
`property_value` key, deserialisation of the required field fails and the
dispatch layer reports an invalid-params error; the documented success
result with the `Property value is missing.` text is not produced, that
branch of the handler being dead code. -/
theorem c4_missing_key_error :
    handle_calculate_sdlt_call none = Except.error "invalid_params" ∧
      handle_calculate_sdlt_call none ≠
        Except.ok (CallToolResult.success ["Property value is missing."]) :=
  ⟨rfl, fun h => Except.noConfusion h⟩

/-- Claim C9: every finite negative input takes none of the band
branches (all four use strict `>` against positive thresholds), so the
computed tax is `0` and the handler returns a success result whose text
reports a tax of `£0.00` for the negative value. -/
theorem c9_negative_input (v : ℚ) (h : v < 0) :
    calculate_sdlt_tax v = 0 ∧
      calculate_sdlt v =
        CallToolResult.success
          ["SDLT for £" ++ fmt2 v ++ " is £" ++ "0.00"] := by
  have n1 : ¬ v > 125000 := by push_neg; linarith
  have n2 : ¬ v > 250000 := by push_neg; linarith
  have n3 : ¬ v > 925000 := by push_neg; linarith
  have n4 : ¬ v > 1500000 := by push_neg; linarith
  have htax : calculate_sdlt_tax v = 0 := by
    simp only [calculate_sdlt_tax]
    simp only [if_neg n1, if_neg n2, if_neg n3, if_neg n4]
  refine ⟨htax, ?_⟩
  have hstep : calculate_sdlt v =
      CallToolResult.success
        ["SDLT for £" ++ fmt2 v ++ " is £" ++ fmt2 (calculate_sdlt_tax v)] := rfl
  rw [hstep, htax]
  have h0 : fmt2 0 = "0.00" := by decide
  rw [h0]

theorem c9_negative_input_witness :
    (-1 : ℚ) < 0 ∧
      (calculate_sdlt_tax (-1) = 0 ∧
        calculate_sdlt (-1) =
          CallToolResult.success
            ["SDLT for £" ++ fmt2 (-1) ++ " is £" ++ "0.00"]) :=
  ⟨by norm_num, c9_negative_input (-1) (by norm_num)⟩

/-- The rmcp tools capability record: its only field is the optional
list-changed notification flag, left unset by the default used in
`enable_tools`. -/
structure ToolsCapability where
  listChanged : Option Bool
deriving DecidableEq

/-- The rmcp `ServerCapabilities` record, one optional entry per
capability; the builder starts with every capability unset. -/
structure ServerCapabilities where
  experimental : Option Unit
  logging : Option Unit
  prompts : Option Unit
  resources : Option Unit
  tools : Option ToolsCapability
deriving DecidableEq

/-- `ServerCapabilities::builder()`: all capabilities unset. -/
def ServerCapabilities.builder : ServerCapabilities :=
  { experimental := none, logging := none, prompts := none,
    resources := none, tools := none }

/-- `enable_tools()`: sets the tools capability to its default value. -/
def ServerCapabilities.enableTools (c : ServerCapabilities) : ServerCapabilities :=
  { c with tools := some { listChanged := none } }

/-- The rmcp `Implementation` record: the package name and version.
Modelled from the spec: `Implementation::from_build_env()` reads these
from the Cargo build metadata, which is not part of src/, so the record
is taken as a parameter. -/
structure Implementation where
  name : String
  version : String
deriving DecidableEq

/-- The rmcp `ServerInfo` record returned by `get_info`. -/
structure ServerInfo where
  protocol_version : String
  capabilities : ServerCapabilities
  server_info : Implementation
  instructions : Option String
deriving DecidableEq

/-- `ServerHandler::get_info` (`src/main.rs` lines 92-103): protocol
version `2024-11-05`, capabilities built with only tools enabled, the
implementation record from the build environment, and the fixed
instructions text (a Rust string literal spanning two source lines,
hence the embedded newline and indentation). -/
def get_info (build_env : Implementation) : ServerInfo :=
  { protocol_version := "2024-11-05"
    capabilities := ServerCapabilities.builder.enableTools
    server_info := build_env
    instructions := some
      "This server provides a calculator tool\n                to work out UK SDLT" }

/-- Claim C10: `get_info` always returns protocol version `2024-11-05`,
capabilities with tools enabled and every other capability unset, the
implementation name and version taken from the build metadata, and a
non-empty instructions string naming the purpose of the server. -/
theorem c10_get_info (build_env : Implementation) :
    (get_info build_env).protocol_version = "2024-11-05" ∧
      (get_info build_env).capabilities.tools = some { listChanged := none } ∧
      (get_info build_env).capabilities.experimental = none ∧
      (get_info build_env).capabilities.logging = none ∧
      (get_info build_env).capabilities.prompts = none ∧
      (get_info build_env).capabilities.resources = none ∧
      (get_info build_env).server_info = build_env ∧
      (get_info build_env).instructions =
        some "This server provides a calculator tool\n                to work out UK SDLT" ∧
      "This server provides a calculator tool\n                to work out UK SDLT" ≠ "" :=
  ⟨rfl, rfl, rfl, rfl, rfl, rfl, rfl, rfl, by decide⟩
